import Mathlib

/-!
Verification of the riirc IRC client core against its specification.

The Rust source is shallowly embedded: byte strings of the wire protocol
become List Char (the protocol is ASCII at every place the claims touch,
and Rust str indexing by bytes coincides with char positions there), the
stdin byte buffer of the line framer becomes List Nat, panics and expect
failures become Except.error carrying the panic message, and HashMap
becomes an insertion-ordered association list (the maps exercised here
hold at most two distinct keys).
-/

/-- Whitespace test matching the characters Rust trim_start removes on the
inputs exercised here (space, tab, line feed, carriage return). -/
def isWs (c : Char) : Bool :=
  c = ' ' || c = '\t' || c = '\n' || c = '\r'

/-- Embedding of str::trim_start. -/
def trimStartWs (s : List Char) : List Char :=
  s.dropWhile isWs

/-- Embedding of str::find for a one-character pattern: index of the first
occurrence of c. -/
def findChar (c : Char) : List Char → Option Nat
  | [] => none
  | x :: xs => if x = c then some 0 else (findChar c xs).map (· + 1)

/-- Does pat occur at the start of s, as in str::starts_with. -/
def startsWith : List Char → List Char → Bool
  | [], _ => true
  | _ :: _, [] => false
  | p :: ps, x :: xs => p = x && startsWith ps xs

/-- Fuel-driven worker for trimStartMatches; fuel bounds the number of
pattern removals, the caller passes the length of the subject string. -/
def trimStartMatchesAux (pat : List Char) : Nat → List Char → List Char
  | 0, s => s
  | fuel + 1, s =>
    match pat with
    | [] => s
    | _ :: _ =>
      if startsWith pat s then trimStartMatchesAux pat fuel (s.drop pat.length)
      else s

/-- Embedding of str::trim_start_matches: repeatedly removes pat from the
front of s. -/
def trimStartMatches (pat s : List Char) : List Char :=
  trimStartMatchesAux pat s.length s

/-- Embedding of str::split for a one-character pattern, like
String.splitOn: split "a;b" on ; gives the two pieces, split of the empty
string gives one empty piece. -/
def splitOnChar (c : Char) : List Char → List (List Char)
  | [] => [[]]
  | x :: xs =>
    if x = c then [] :: splitOnChar c xs
    else
      match splitOnChar c xs with
      | [] => [[x]]
      | y :: ys => (x :: y) :: ys

/-- Embedding of slice join with a one-character separator. -/
def joinSep (c : Char) : List (List Char) → List Char
  | [] => []
  | [x] => x
  | x :: y :: ys => x ++ c :: joinSep c (y :: ys)

/-- Embedding of str::find for the two-character pattern CRLF (and any
other pattern): index of the first occurrence of pat as a substring. -/
def findSubstr (pat : List Char) (s : List Char) : Option Nat :=
  match s with
  | [] => if pat.isEmpty then some 0 else none
  | _ :: xs => if startsWith pat s then some 0 else (findSubstr pat xs).map (· + 1)

/-- Embedding of slice split_last: some (last element, the rest) for a
non-empty list. -/
def splitLast {α : Type} : List α → Option (α × List α)
  | [] => none
  | [x] => some (x, [])
  | x :: y :: ys =>
    match splitLast (y :: ys) with
    | some (l, e) => some (l, x :: e)
    | none => none

/-- Numeric value of one ASCII digit. -/
def digitVal (c : Char) : Option Nat :=
  if '0' ≤ c ∧ c ≤ '9' then some (c.toNat - 48) else none

/-- Accumulated value of a non-empty all-digit string, none otherwise. -/
def digitsVal (s : List Char) : Option Nat :=
  match s with
  | [] => none
  | _ => s.foldl (fun acc c => acc.bind fun a => (digitVal c).map fun d => a * 10 + d) (some 0)

/-- Embedding of str::parse for u16: an optional sign followed by at least
one digit; a plus or no sign overflows above 65535; a minus sign succeeds
only on value zero (checked_sub from zero). -/
def parseU16 (s : List Char) : Option Nat :=
  match s with
  | [] => none
  | c :: rest =>
    if c = '+' then (digitsVal rest).bind fun v => if v ≤ 65535 then some v else none
    else if c = '-' then (digitsVal rest).bind fun v => if v = 0 then some 0 else none
    else (digitsVal s).bind fun v => if v ≤ 65535 then some v else none

/-- Variants of the Rust enum InfoReply of src/irc/proto.rs with their repr u16 discriminants. -/
inductive InfoReply where
  | Welcome
  | YourHost
  | Created
  | MyInfo
  | ISupport
  | Bounce
  | UModeIs
  | StatsDLine
  | LUserClient
  | LUserOp
  | LUserUnknown
  | LUserChannels
  | LUserMe
  | LAdminMe
  | AdminLoc1
  | AdminLoc2
  | AdminEmail
  | TryAgain
  | LocalUsers
  | GlobalUsers
  | WhoIsCertFP
  deriving DecidableEq

/-- Embedding of TryFromPrimitive for InfoReply: maps a u16 discriminant to its variant, none when no variant carries that value. -/
def infoReplyOfU16 : Nat → Option InfoReply
  | 1 => some InfoReply.Welcome
  | 2 => some InfoReply.YourHost
  | 3 => some InfoReply.Created
  | 4 => some InfoReply.MyInfo
  | 5 => some InfoReply.ISupport
  | 10 => some InfoReply.Bounce
  | 221 => some InfoReply.UModeIs
  | 250 => some InfoReply.StatsDLine
  | 251 => some InfoReply.LUserClient
  | 252 => some InfoReply.LUserOp
  | 253 => some InfoReply.LUserUnknown
  | 254 => some InfoReply.LUserChannels
  | 255 => some InfoReply.LUserMe
  | 256 => some InfoReply.LAdminMe
  | 257 => some InfoReply.AdminLoc1
  | 258 => some InfoReply.AdminLoc2
  | 259 => some InfoReply.AdminEmail
  | 263 => some InfoReply.TryAgain
  | 265 => some InfoReply.LocalUsers
  | 266 => some InfoReply.GlobalUsers
  | 267 => some InfoReply.WhoIsCertFP
  | _ => none

/-- Derived Debug label of each InfoReply variant, as Rust formats it. -/
def infoReplyDebug : InfoReply → List Char
  | InfoReply.Welcome => ("Welcome" : String).data
  | InfoReply.YourHost => ("YourHost" : String).data
  | InfoReply.Created => ("Created" : String).data
  | InfoReply.MyInfo => ("MyInfo" : String).data
  | InfoReply.ISupport => ("ISupport" : String).data
  | InfoReply.Bounce => ("Bounce" : String).data
  | InfoReply.UModeIs => ("UModeIs" : String).data
  | InfoReply.StatsDLine => ("StatsDLine" : String).data
  | InfoReply.LUserClient => ("LUserClient" : String).data
  | InfoReply.LUserOp => ("LUserOp" : String).data
  | InfoReply.LUserUnknown => ("LUserUnknown" : String).data
  | InfoReply.LUserChannels => ("LUserChannels" : String).data
  | InfoReply.LUserMe => ("LUserMe" : String).data
  | InfoReply.LAdminMe => ("LAdminMe" : String).data
  | InfoReply.AdminLoc1 => ("AdminLoc1" : String).data
  | InfoReply.AdminLoc2 => ("AdminLoc2" : String).data
  | InfoReply.AdminEmail => ("AdminEmail" : String).data
  | InfoReply.TryAgain => ("TryAgain" : String).data
  | InfoReply.LocalUsers => ("LocalUsers" : String).data
  | InfoReply.GlobalUsers => ("GlobalUsers" : String).data
  | InfoReply.WhoIsCertFP => ("WhoIsCertFP" : String).data

/-- Variants of the Rust enum CommandReply of src/irc/proto.rs with their repr u16 discriminants. -/
inductive CommandReply where
  | None
  | Away
  | UserHost
  | IsOn
  | UnAway
  | NowAway
  | WhoIsUser
  | WhoIsServer
  | WhoIsOperator
  | WhoWasUser
  | WhoIsIdle
  | EndOfWhoIs
  | WhoIsChannels
  | ListStart
  | List
  | ListEnd
  | ChannelModeIs
  | ChannelUrl
  | CreationTime
  | NoTopic
  | Topic
  | TopicWhoTime
  | Inviting
  | InviteList
  | EndOfInviteList
  | ExceptList
  | EndOfExceptList
  | Version
  | NameReply
  | EndOfNames
  | BanList
  | EndOfBanList
  | EndOfWhoWas
  | MOTD
  | MOTDStart
  | EndOfMOTD
  | YoureOperator
  | Rehashing
  deriving DecidableEq

/-- Embedding of TryFromPrimitive for CommandReply: maps a u16 discriminant to its variant, none when no variant carries that value. -/
def commandReplyOfU16 : Nat → Option CommandReply
  | 300 => some CommandReply.None
  | 301 => some CommandReply.Away
  | 302 => some CommandReply.UserHost
  | 303 => some CommandReply.IsOn
  | 304 => some CommandReply.UnAway
  | 305 => some CommandReply.NowAway
  | 311 => some CommandReply.WhoIsUser
  | 312 => some CommandReply.WhoIsServer
  | 313 => some CommandReply.WhoIsOperator
  | 314 => some CommandReply.WhoWasUser
  | 317 => some CommandReply.WhoIsIdle
  | 318 => some CommandReply.EndOfWhoIs
  | 319 => some CommandReply.WhoIsChannels
  | 321 => some CommandReply.ListStart
  | 322 => some CommandReply.List
  | 323 => some CommandReply.ListEnd
  | 324 => some CommandReply.ChannelModeIs
  | 328 => some CommandReply.ChannelUrl
  | 329 => some CommandReply.CreationTime
  | 331 => some CommandReply.NoTopic
  | 332 => some CommandReply.Topic
  | 333 => some CommandReply.TopicWhoTime
  | 341 => some CommandReply.Inviting
  | 346 => some CommandReply.InviteList
  | 347 => some CommandReply.EndOfInviteList
  | 348 => some CommandReply.ExceptList
  | 349 => some CommandReply.EndOfExceptList
  | 351 => some CommandReply.Version
  | 353 => some CommandReply.NameReply
  | 366 => some CommandReply.EndOfNames
  | 367 => some CommandReply.BanList
  | 368 => some CommandReply.EndOfBanList
  | 369 => some CommandReply.EndOfWhoWas
  | 372 => some CommandReply.MOTD
  | 375 => some CommandReply.MOTDStart
  | 376 => some CommandReply.EndOfMOTD
  | 381 => some CommandReply.YoureOperator
  | 382 => some CommandReply.Rehashing
  | _ => none

/-- Derived Debug label of each CommandReply variant, as Rust formats it. -/
def commandReplyDebug : CommandReply → List Char
  | CommandReply.None => ("None" : String).data
  | CommandReply.Away => ("Away" : String).data
  | CommandReply.UserHost => ("UserHost" : String).data
  | CommandReply.IsOn => ("IsOn" : String).data
  | CommandReply.UnAway => ("UnAway" : String).data
  | CommandReply.NowAway => ("NowAway" : String).data
  | CommandReply.WhoIsUser => ("WhoIsUser" : String).data
  | CommandReply.WhoIsServer => ("WhoIsServer" : String).data
  | CommandReply.WhoIsOperator => ("WhoIsOperator" : String).data
  | CommandReply.WhoWasUser => ("WhoWasUser" : String).data
  | CommandReply.WhoIsIdle => ("WhoIsIdle" : String).data
  | CommandReply.EndOfWhoIs => ("EndOfWhoIs" : String).data
  | CommandReply.WhoIsChannels => ("WhoIsChannels" : String).data
  | CommandReply.ListStart => ("ListStart" : String).data
  | CommandReply.List => ("List" : String).data
  | CommandReply.ListEnd => ("ListEnd" : String).data
  | CommandReply.ChannelModeIs => ("ChannelModeIs" : String).data
  | CommandReply.ChannelUrl => ("ChannelUrl" : String).data
  | CommandReply.CreationTime => ("CreationTime" : String).data
  | CommandReply.NoTopic => ("NoTopic" : String).data
  | CommandReply.Topic => ("Topic" : String).data
  | CommandReply.TopicWhoTime => ("TopicWhoTime" : String).data
  | CommandReply.Inviting => ("Inviting" : String).data
  | CommandReply.InviteList => ("InviteList" : String).data
  | CommandReply.EndOfInviteList => ("EndOfInviteList" : String).data
  | CommandReply.ExceptList => ("ExceptList" : String).data
  | CommandReply.EndOfExceptList => ("EndOfExceptList" : String).data
  | CommandReply.Version => ("Version" : String).data
  | CommandReply.NameReply => ("NameReply" : String).data
  | CommandReply.EndOfNames => ("EndOfNames" : String).data
  | CommandReply.BanList => ("BanList" : String).data
  | CommandReply.EndOfBanList => ("EndOfBanList" : String).data
  | CommandReply.EndOfWhoWas => ("EndOfWhoWas" : String).data
  | CommandReply.MOTD => ("MOTD" : String).data
  | CommandReply.MOTDStart => ("MOTDStart" : String).data
  | CommandReply.EndOfMOTD => ("EndOfMOTD" : String).data
  | CommandReply.YoureOperator => ("YoureOperator" : String).data
  | CommandReply.Rehashing => ("Rehashing" : String).data

/-- Variants of the Rust enum ErrorReply of src/irc/proto.rs with their repr u16 discriminants. -/
inductive ErrorReply where
  | Unknown
  | NoSuchNick
  | NosuchServer
  | NoSuchChannel
  | CannotSendToChannel
  | TooManyChannels
  | UnknownCommand
  | NoMOTD
  | ErroneousNickname
  | NickInUse
  | UserNotInChannel
  | NotOnChannel
  | UserOnchannel
  | NotRegistered
  | NeedMoreParameters
  | AlreadRegistered
  | PasswordMismatch
  | YoureBannedCreep
  | ChannelIsFull
  | UnknownMode
  | InviteOnlyChannel
  | BannedFromChannel
  | BadChannelKey
  | NoPrivileges
  | ChanOpPrivsNeeded
  | CantKillServer
  | NoOperHost
  | UModeUnknownFlag
  | UsersDontMatch
  | StartTLS
  | NoPrivs
  | NickLocked
  | SASLFail
  | SASLTooLong
  | SASLAborted
  | SASLAlready
  deriving DecidableEq

/-- Embedding of TryFromPrimitive for ErrorReply: maps a u16 discriminant to its variant, none when no variant carries that value. -/
def errorReplyOfU16 : Nat → Option ErrorReply
  | 400 => some ErrorReply.Unknown
  | 401 => some ErrorReply.NoSuchNick
  | 402 => some ErrorReply.NosuchServer
  | 403 => some ErrorReply.NoSuchChannel
  | 404 => some ErrorReply.CannotSendToChannel
  | 405 => some ErrorReply.TooManyChannels
  | 421 => some ErrorReply.UnknownCommand
  | 422 => some ErrorReply.NoMOTD
  | 432 => some ErrorReply.ErroneousNickname
  | 433 => some ErrorReply.NickInUse
  | 441 => some ErrorReply.UserNotInChannel
  | 442 => some ErrorReply.NotOnChannel
  | 443 => some ErrorReply.UserOnchannel
  | 451 => some ErrorReply.NotRegistered
  | 461 => some ErrorReply.NeedMoreParameters
  | 462 => some ErrorReply.AlreadRegistered
  | 464 => some ErrorReply.PasswordMismatch
  | 465 => some ErrorReply.YoureBannedCreep
  | 471 => some ErrorReply.ChannelIsFull
  | 472 => some ErrorReply.UnknownMode
  | 473 => some ErrorReply.InviteOnlyChannel
  | 474 => some ErrorReply.BannedFromChannel
  | 475 => some ErrorReply.BadChannelKey
  | 481 => some ErrorReply.NoPrivileges
  | 482 => some ErrorReply.ChanOpPrivsNeeded
  | 483 => some ErrorReply.CantKillServer
  | 491 => some ErrorReply.NoOperHost
  | 501 => some ErrorReply.UModeUnknownFlag
  | 502 => some ErrorReply.UsersDontMatch
  | 691 => some ErrorReply.StartTLS
  | 723 => some ErrorReply.NoPrivs
  | 902 => some ErrorReply.NickLocked
  | 904 => some ErrorReply.SASLFail
  | 905 => some ErrorReply.SASLTooLong
  | 906 => some ErrorReply.SASLAborted
  | 907 => some ErrorReply.SASLAlready
  | _ => none

/-- Derived Debug label of each ErrorReply variant, as Rust formats it. -/
def errorReplyDebug : ErrorReply → List Char
  | ErrorReply.Unknown => ("Unknown" : String).data
  | ErrorReply.NoSuchNick => ("NoSuchNick" : String).data
  | ErrorReply.NosuchServer => ("NosuchServer" : String).data
  | ErrorReply.NoSuchChannel => ("NoSuchChannel" : String).data
  | ErrorReply.CannotSendToChannel => ("CannotSendToChannel" : String).data
  | ErrorReply.TooManyChannels => ("TooManyChannels" : String).data
  | ErrorReply.UnknownCommand => ("UnknownCommand" : String).data
  | ErrorReply.NoMOTD => ("NoMOTD" : String).data
  | ErrorReply.ErroneousNickname => ("ErroneousNickname" : String).data
  | ErrorReply.NickInUse => ("NickInUse" : String).data
  | ErrorReply.UserNotInChannel => ("UserNotInChannel" : String).data
  | ErrorReply.NotOnChannel => ("NotOnChannel" : String).data
  | ErrorReply.UserOnchannel => ("UserOnchannel" : String).data
  | ErrorReply.NotRegistered => ("NotRegistered" : String).data
  | ErrorReply.NeedMoreParameters => ("NeedMoreParameters" : String).data
  | ErrorReply.AlreadRegistered => ("AlreadRegistered" : String).data
  | ErrorReply.PasswordMismatch => ("PasswordMismatch" : String).data
  | ErrorReply.YoureBannedCreep => ("YoureBannedCreep" : String).data
  | ErrorReply.ChannelIsFull => ("ChannelIsFull" : String).data
  | ErrorReply.UnknownMode => ("UnknownMode" : String).data
  | ErrorReply.InviteOnlyChannel => ("InviteOnlyChannel" : String).data
  | ErrorReply.BannedFromChannel => ("BannedFromChannel" : String).data
  | ErrorReply.BadChannelKey => ("BadChannelKey" : String).data
  | ErrorReply.NoPrivileges => ("NoPrivileges" : String).data
  | ErrorReply.ChanOpPrivsNeeded => ("ChanOpPrivsNeeded" : String).data
  | ErrorReply.CantKillServer => ("CantKillServer" : String).data
  | ErrorReply.NoOperHost => ("NoOperHost" : String).data
  | ErrorReply.UModeUnknownFlag => ("UModeUnknownFlag" : String).data
  | ErrorReply.UsersDontMatch => ("UsersDontMatch" : String).data
  | ErrorReply.StartTLS => ("StartTLS" : String).data
  | ErrorReply.NoPrivs => ("NoPrivs" : String).data
  | ErrorReply.NickLocked => ("NickLocked" : String).data
  | ErrorReply.SASLFail => ("SASLFail" : String).data
  | ErrorReply.SASLTooLong => ("SASLTooLong" : String).data
  | ErrorReply.SASLAborted => ("SASLAborted" : String).data
  | ErrorReply.SASLAlready => ("SASLAlready" : String).data

/-- Embedding of the Rust enum Reply of src/irc/proto.rs. -/
inductive Reply where
  | Info : InfoReply → Reply
  | Command : CommandReply → Reply
  | Error : ErrorReply → Reply
  deriving DecidableEq

/-- Embedding of impl From of u16 for Reply (src/irc/proto.rs lines 298 to
310): the three TryFromPrimitive conversions are tried in the fixed order
Info, Command, Error; the panic on an unmatched value is modeled as none. -/
def replyFromU16 (n : Nat) : Option Reply :=
  match infoReplyOfU16 n with
  | some ir => some (Reply.Info ir)
  | none =>
    match commandReplyOfU16 n with
    | some cr => some (Reply.Command cr)
    | none =>
      match errorReplyOfU16 n with
      | some er => some (Reply.Error er)
      | none => none

/-- Derived Debug label of a Reply, as the Rust format string produces it:
the family name with the variant label in parentheses. -/
def replyDebug : Reply → List Char
  | Reply.Info ir => ("Info(" : String).data ++ infoReplyDebug ir ++ [')']
  | Reply.Command cr => ("Command(" : String).data ++ commandReplyDebug cr ++ [')']
  | Reply.Error er => ("Error(" : String).data ++ errorReplyDebug er ++ [')']

/-- Embedding of the Rust enum Command of src/irc/proto.rs line 313: a
textual verb or a classified numeric reply. -/
inductive Command where
  | Cmd : List Char → Command
  | Response : Reply → Command
  deriving DecidableEq

/-- Embedding of impl From of String for Command (src/irc/proto.rs lines
327 to 334): a string parsing as u16 is classified through Reply (whose
panic on an unknown numeric is modeled as the error), anything else is a
textual verb. -/
def commandFromString (s : List Char) : Except String Command :=
  match parseU16 s with
  | some n =>
    match replyFromU16 n with
    | some r => Except.ok (Command.Response r)
    | none => Except.error "unknown reply"
  | none => Except.ok (Command.Cmd s)

/-- Embedding of the Rust struct Message of src/irc/proto.rs; the tags
HashMap becomes an insertion-ordered association list and the field called
prefix in the source is named origin here. -/
structure Message where
  tags : List (List Char × List Char)
  origin : Option (List Char)
  command : Command
  params : List (List Char)
  deriving DecidableEq

/-- Embedding of HashMap::insert on the association list: replaces the
value when the key is present, otherwise appends the pair. -/
def tagsInsert (m : List (List Char × List Char)) (k v : List Char) :
    List (List Char × List Char) :=
  if m.any fun kv => kv.1 = k then
    m.map fun kv => if kv.1 = k then (k, v) else kv
  else m ++ [(k, v)]

/-- Tag extraction step of impl From of BytesMut for Message
(src/irc/proto.rs lines 349 to 362): on a line starting with the at sign,
the substring up to the first space is split on semicolons, each entry is
split on every equals sign and only the first two pieces are kept; the
expect on a missing space is modeled as the error. The tag section is not
consumed from the line, exactly as in the source. -/
def parseTagsStep (src : List Char) : Except String (List (List Char × List Char)) :=
  match src with
  | '@' :: _ =>
    (match findChar ' ' src with
     | none => Except.error "malformed message"
     | some next =>
       Except.ok ((splitOnChar ';' ((src.take next).drop 1)).foldl
         (fun m tag =>
           match splitOnChar '=' tag with
           | [] => m
           | [k] => tagsInsert m k ("true" : String).data
           | k :: v :: _ => tagsInsert m k v) []))
  | _ => Except.ok []

/-- Origin extraction step of impl From of BytesMut for Message
(src/irc/proto.rs lines 366 to 374): on a line starting with a colon, the
span up to the first space minus the leading colon is the origin, and that
span including the colon is removed from the front with
trim_start_matches; the expect on a missing space is modeled as the
error. -/
def parsePrefixStep (s1 : List Char) : Except String (Option (List Char) × List Char) :=
  match s1 with
  | ':' :: _ =>
    (match findChar ' ' s1 with
     | none => Except.error "malformed message"
     | some next =>
       Except.ok (some ((s1.take next).drop 1), trimStartMatches (s1.take next) s1))
  | _ => Except.ok (none, s1)

/-- Command token of the remainder after tags and origin: the span up to
the next space, or the whole remainder when no space is left
(src/irc/proto.rs lines 378 to 380). -/
def commandToken (s3 : List Char) : List Char :=
  s3.take ((findChar ' ' s3).getD s3.length)

/-- Remainder after the command token is removed with trim_start_matches
and leading whitespace is trimmed (src/irc/proto.rs lines 385 to 388). -/
def restAfterCommand (s3 : List Char) : List Char :=
  trimStartWs (trimStartMatches (commandToken s3) s3)

/-- Parameter extraction (src/irc/proto.rs lines 390 to 400): the
remainder is cut at the first colon; the part before it is split on single
spaces with empty tokens dropped, and the part strictly after the colon is
appended as the trailing parameter, which is empty when no colon is
found. -/
def paramsOf (s5 : List Char) : List (List Char) :=
  match findChar ':' s5 with
  | some i =>
    ((splitOnChar ' ' (s5.take i)).filter fun x => !x.isEmpty) ++ [(s5.drop i).drop 1]
  | none => ((splitOnChar ' ' s5).filter fun x => !x.isEmpty) ++ [[]]

/-- Embedding of impl From of BytesMut for Message (src/irc/proto.rs lines
344 to 411), operating on the decoded character list of the frame: tags
are read but not consumed, the origin is read after trimming, the command
token runs to the next space and is classified, the remainder is split at
the first colon into space-separated middle parameters (empty tokens
dropped) and a trailing parameter that is always appended, even when
empty. -/
def parseMessage (src : List Char) : Except String Message :=
  match parseTagsStep src with
  | Except.error e => Except.error e
  | Except.ok tags =>
    match parsePrefixStep (trimStartWs src) with
    | Except.error e => Except.error e
    | Except.ok (origin, s2) =>
      match commandFromString (commandToken (trimStartWs s2)) with
      | Except.error e => Except.error e
      | Except.ok command =>
        Except.ok
          { tags := tags
            origin := origin
            command := command
            params := paramsOf (restAfterCommand (trimStartWs s2)) }

/-- Embedding of impl From of Message for BytesMut (src/irc/proto.rs lines
413 to 444): the at-prefixed tag section when tags are non-empty, the
colon-prefixed origin when present, the command token (a verb verbatim, a
numeric reply through its derived Debug label), then all parameters joined
by spaces except the last, which always follows space colon, then CRLF. -/
def encodeMessage (msg : Message) : List Char :=
  let tagsPart :=
    if msg.tags.isEmpty then []
    else '@' :: (joinSep ';' (msg.tags.map fun kv => kv.1 ++ '=' :: kv.2) ++ [' '])
  let originPart :=
    match msg.origin with
    | none => []
    | some p => ':' :: (p ++ [' '])
  let cmdPart :=
    match msg.command with
    | Command.Cmd s => s
    | Command.Response r => replyDebug r
  let paramsPart :=
    match splitLast msg.params with
    | none => []
    | some (last, elements) => joinSep ' ' elements ++ ' ' :: ':' :: last
  tagsPart ++ (originPart ++ (cmdPart ++ ' ' :: (paramsPart ++ ['\r', '\n'])))

/-- Embedding of ServerMessageCodec::decode (src/irc/codec.rs lines 48 to
65): nothing on an empty buffer, otherwise the bytes before the first CRLF
are parsed as one Message and the buffer advances past the CRLF; without a
CRLF nothing is produced and the buffer is kept. -/
def serverMessageDecode (src : List Char) :
    Except String (Option Message × List Char) :=
  match src with
  | [] => Except.ok (none, src)
  | _ :: _ =>
    match findSubstr ['\r', '\n'] src with
    | some i =>
      (match parseMessage (src.take i) with
       | Except.ok msg => Except.ok (some msg, src.drop (i + 2))
       | Except.error e => Except.error e)
    | none => Except.ok (none, src)

/-- Embedding of ServerMessageCodec::encode (src/irc/codec.rs lines 68 to
75): dst.clone_from replaces whatever the destination buffer held with the
wire bytes of the message. -/
def serverMessageEncode (item : Message) (dst : List Char) : List Char :=
  encodeMessage item

/-- Embedding of CrLfDelimitedCodec::decode (src/irc/codec.rs lines 20 to
32) over the byte buffer: when the last byte is a line feed it is
rewritten to carriage return, a line feed is appended, and the whole
buffer is emitted leaving it empty; otherwise nothing is emitted and the
buffer is kept. -/
def crlfDecode (src : List Nat) : Option (List Nat) × List Nat :=
  match src.getLast? with
  | none => (none, src)
  | some b => if b = 10 then (some (src.dropLast ++ [13, 10]), []) else (none, src)

/-- One step of the keepalive filter closure in Client::new
(src/irc/mod.rs lines 21 to 40): a message whose command is the verb PING
is swallowed and a PONG carrying the same parameters is enqueued outbound;
every other message is forwarded unchanged. -/
def keepaliveStep (msg : Message) : Option Message × List Message :=
  match msg.command with
  | Command.Cmd v =>
    if v = ("PING" : String).data then
      (none, [{ tags := [], origin := none,
                command := Command.Cmd ("PONG" : String).data,
                params := msg.params }])
    else (some msg, [])
  | Command.Response _ => (some msg, [])

/-- The keepalive filter over an inbound message sequence: the first
component is what reaches the downstream consumer, the second what is
enqueued on the outbound path. -/
def keepaliveFilter : List Message → List Message × List Message
  | [] => ([], [])
  | msg :: rest =>
    let step := keepaliveStep msg
    let tail := keepaliveFilter rest
    (step.1.toList ++ tail.1, step.2 ++ tail.2)

/-- Embedding of the Rust struct User of src/irc/proto.rs. -/
structure User where
  nick : String
  name : Option String
  real_name : Option String
  deriving DecidableEq

/-- Registration sequence of connect (src/irc/mod.rs lines 90 to 110):
the lines written to the socket in order, paired with some panic value
when the session bootstrap panics. The source computes the username as
name.ok_or(nick).unwrap() and the real name as
real_name.ok_or(Anonymous).unwrap(), so an absent optional field reaches
unwrap on an Err and panics after the first two lines were written. -/
def connectRegistration (usr : User) : List String × Option String :=
  let l1 := "CAP LS 302\r\n"
  let l2 := "NICK " ++ usr.nick ++ "\r\n"
  match usr.name with
  | none => ([l1, l2], some usr.nick)
  | some username =>
    match usr.real_name with
    | none => ([l1, l2], some "Anonymous")
    | some rn =>
      ([l1, l2, "USER " ++ username ++ " 0 * :" ++ rn ++ "\r\n", "CAP END\r\n"], none)

/-- The line shape of the round-trip claim: colon origin, space, verb,
space, one middle parameter, space, colon, trailing. -/
def privmsgLine (p v m t : List Char) : List Char :=
  ':' :: (p ++ ' ' :: (v ++ ' ' :: (m ++ ' ' :: ':' :: t)))

lemma startsWith_append (xs ys : List Char) : startsWith xs (xs ++ ys) = true := by
  induction xs with
  | nil => rfl
  | cons a l ih => simp [startsWith, ih]

lemma startsWith_cons_ne (a b : Char) (ps xs : List Char) (h : ¬ a = b) :
    startsWith (a :: ps) (b :: xs) = false := by
  simp [startsWith, h]

lemma take_len_append {α : Type} (xs ys : List α) : (xs ++ ys).take xs.length = xs := by
  induction xs with
  | nil => rfl
  | cons a l ih => simp [ih]

lemma drop_len_append {α : Type} (xs ys : List α) : (xs ++ ys).drop xs.length = ys := by
  induction xs with
  | nil => rfl
  | cons a l ih => simp [ih]

lemma drop_len_add_append {α : Type} (xs ys : List α) (k : Nat) :
    (xs ++ ys).drop (xs.length + k) = ys.drop k := by
  induction xs with
  | nil => simp
  | cons a l ih =>
    have harith : l.length + 1 + k = (l.length + k) + 1 := by omega
    simp only [List.cons_append, List.length_cons, harith, List.drop_succ_cons]
    exact ih

lemma findChar_of_not_mem (c : Char) (xs : List Char) (h : c ∉ xs) :
    findChar c xs = none := by
  induction xs with
  | nil => rfl
  | cons a l ih =>
    simp only [List.mem_cons, not_or] at h
    rw [findChar, if_neg fun e => h.1 e.symm, ih h.2]
    rfl

lemma findChar_append (c : Char) (xs rest : List Char) (h : c ∉ xs) :
    findChar c (xs ++ c :: rest) = some xs.length := by
  induction xs with
  | nil => simp [findChar]
  | cons a l ih =>
    simp only [List.mem_cons, not_or] at h
    rw [List.cons_append, findChar, if_neg fun e => h.1 e.symm, ih h.2]
    rfl

lemma trimStartMatchesAux_of_no (a : Char) (ps s : List Char) (fuel : Nat)
    (h : startsWith (a :: ps) s = false) :
    trimStartMatchesAux (a :: ps) fuel s = s := by
  cases fuel with
  | zero => rfl
  | succ k => simp [trimStartMatchesAux, h]

lemma trimStartMatches_cons_append (a : Char) (ps rest : List Char)
    (h : startsWith (a :: ps) rest = false) :
    trimStartMatches (a :: ps) ((a :: ps) ++ rest) = rest := by
  have hlen : ((a :: ps) ++ rest).length = (ps ++ rest).length + 1 := by simp
  rw [trimStartMatches, hlen]
  rw [trimStartMatchesAux]
  rw [if_pos (startsWith_append (a :: ps) rest), drop_len_append]
  exact trimStartMatchesAux_of_no a ps rest (ps ++ rest).length h

lemma trimStartWs_cons_not (c : Char) (l : List Char) (h : isWs c = false) :
    trimStartWs (c :: l) = c :: l := by
  simp [trimStartWs, List.dropWhile_cons, h]

lemma trimStartWs_cons_ws (c : Char) (l : List Char) (h : isWs c = true) :
    trimStartWs (c :: l) = trimStartWs l := by
  simp [trimStartWs, List.dropWhile_cons, h]

lemma splitOnChar_ne_nil (c : Char) (s : List Char) : splitOnChar c s ≠ [] := by
  induction s with
  | nil => simp [splitOnChar]
  | cons a l ih =>
    by_cases hac : a = c
    · simp [splitOnChar, hac]
    · cases hsp : splitOnChar c l with
      | nil => simp [splitOnChar, hac, hsp]
      | cons y ys => simp [splitOnChar, hac, hsp]

lemma splitOnChar_append (c : Char) (xs rest : List Char) (h : c ∉ xs) :
    splitOnChar c (xs ++ c :: rest) = xs :: splitOnChar c rest := by
  induction xs with
  | nil => simp [splitOnChar]
  | cons a l ih =>
    simp only [List.mem_cons, not_or] at h
    rw [List.cons_append, splitOnChar, if_neg fun e => h.1 e.symm, ih h.2]

lemma splitOnChar_of_not_mem (c : Char) (xs : List Char) (h : c ∉ xs) :
    splitOnChar c xs = [xs] := by
  induction xs with
  | nil => rfl
  | cons a l ih =>
    simp only [List.mem_cons, not_or] at h
    rw [splitOnChar, if_neg fun e => h.1 e.symm, ih h.2]

lemma findSubstr_crlf (xs ys : List Char) (h : '\n' ∉ xs) :
    findSubstr ['\r', '\n'] (xs ++ '\r' :: '\n' :: ys) = some xs.length := by
  induction xs with
  | nil => simp [findSubstr, startsWith]
  | cons a l ih =>
    simp only [List.mem_cons, not_or] at h
    have hsw : startsWith ['\r', '\n'] (a :: (l ++ '\r' :: '\n' :: ys)) = false := by
      cases l with
      | nil => simp [startsWith]
      | cons b l2 =>
        have hb : ¬ '\n' = b := by
          intro e
          exact h.2 (List.mem_cons.mpr (Or.inl e))
        simp [startsWith, hb]
    rw [List.cons_append, findSubstr, if_neg (by simp [hsw]), ih h.2]
    rfl

lemma foldl_digits_none (l : List Char) :
    l.foldl (fun acc c => acc.bind fun a => (digitVal c).map fun d => a * 10 + d) none
      = none := by
  induction l with
  | nil => rfl
  | cons a t ih => simpa using ih

lemma parseU16_head_not (c : Char) (l : List Char) (h1 : ¬ c = '+') (h2 : ¬ c = '-')
    (h3 : digitVal c = none) : parseU16 (c :: l) = none := by
  simp only [parseU16]
  rw [if_neg h1, if_neg h2]
  simp only [digitsVal]
  simp [List.foldl, h3, foldl_digits_none]

lemma paramsOf_ne_nil (s : List Char) : paramsOf s ≠ [] := by
  unfold paramsOf
  split <;> simp

lemma getLast?_cons_ne_none {α : Type} (a : α) (l : List α) :
    (a :: l).getLast? ≠ none := by
  induction l generalizing a with
  | nil => simp
  | cons b m ih => rw [List.getLast?_cons_cons]; exact ih b

lemma mem_of_getLast?_eq {α : Type} (l : List α) (b : α) (h : l.getLast? = some b) :
    b ∈ l := by
  induction l with
  | nil => simp at h
  | cons a m ih =>
    cases m with
    | nil => simp at h; simp [h]
    | cons c m2 =>
      rw [List.getLast?_cons_cons] at h
      exact List.mem_cons_of_mem a (ih h)

lemma parseTagsStep_not_at (c : Char) (rest : List Char) (h : ¬ c = '@') :
    parseTagsStep (c :: rest) = Except.ok [] := by
  simp only [parseTagsStep]
  split <;> simp_all

/-- C4: the source does not treat a malformed frame as a recoverable
per-frame decode failure: on the inbound bytes holding the frame
consisting of an at-sign tag section with no following space, the decode
reaches the expect call with the panic text recorded here, which in Rust
aborts the whole process instead of failing only this frame. -/
theorem c4_malformed_frame_reaches_panic :
    serverMessageDecode ("@id=123\r\n" : String).data = Except.error "malformed message" :=
  rfl

/-- C5: the source encoder renders a numeric reply command through the
derived Debug label of the Reply value, not through its decimal code: a
message whose command is the welcome reply encodes with the command token
Info(Welcome), which differs from both 001 and 1. -/
theorem c5_numeric_reply_encoded_as_debug_label :
    encodeMessage
        { tags := [], origin := none,
          command := Command.Response (Reply.Info InfoReply.Welcome),
          params := [("client" : String).data, ("Welcome!" : String).data] } =
      ("Info(Welcome) client :Welcome!\r\n" : String).data ∧
    ("Info(Welcome) client :Welcome!\r\n" : String).data ≠
      ("001 client :Welcome!\r\n" : String).data ∧
    ("Info(Welcome) client :Welcome!\r\n" : String).data ≠
      ("1 client :Welcome!\r\n" : String).data :=
  ⟨rfl, by decide, by decide⟩

/-- C3: with both optional fields present the session bootstrap writes
exactly the four CRLF-terminated lines in the claimed fixed order, but
when name or real_name is absent the source panics at ok_or(..).unwrap()
after writing only the first two lines, instead of using the default nick
or Anonymous: the panic value recorded is exactly the value the claim says
would be used as the default. -/
theorem c3_registration_defaults_panic :
    (∀ n u r : String,
      connectRegistration { nick := n, name := some u, real_name := some r } =
        (["CAP LS 302\r\n", "NICK " ++ n ++ "\r\n",
          "USER " ++ u ++ " 0 * :" ++ r ++ "\r\n", "CAP END\r\n"], none)) ∧
    connectRegistration { nick := "alice", name := none, real_name := none } =
      (["CAP LS 302\r\n", "NICK alice\r\n"], some "alice") ∧
    connectRegistration { nick := "alice", name := some "al", real_name := none } =
      (["CAP LS 302\r\n", "NICK alice\r\n"], some "Anonymous") :=
  ⟨fun _ _ _ => rfl, rfl, rfl⟩

/-- C10: the codec encode step replaces the destination buffer with the
wire bytes of the message: the result never depends on the bytes already
buffered, and encoding a second message discards the unflushed bytes of
the first. -/
theorem c10_encoder_overwrites_buffer :
    ∀ (item other : Message) (dst dst2 : List Char),
      serverMessageEncode item dst = encodeMessage item ∧
      serverMessageEncode item dst = serverMessageEncode item dst2 ∧
      serverMessageEncode item (serverMessageEncode other dst) = encodeMessage item :=
  fun _ _ _ _ => ⟨rfl, rfl, rfl⟩

/-- C7 counterexample: on the line whose tag section is an entry with two
equals signs, the parser stores only the piece between the first and
second equals sign as the value, while splitting on the first equals sign
only would keep the full remainder: the value parsed from id=1=2 is 1, not
1=2. -/
theorem c7_counterexample_value_with_equals :
    (parseMessage ("@id=1=2 PING" : String).data).map Message.tags =
      Except.ok [(("id" : String).data, ("1" : String).data)] ∧
    ([(("id" : String).data, ("1" : String).data)] : List (List Char × List Char)) ≠
      [(("id" : String).data, ("1=2" : String).data)] :=
  ⟨rfl, by decide⟩

/-- C2: the keepalive filter of Client::new swallows every message whose
command is the verb PING and enqueues exactly one PONG carrying the same
parameters outbound, forwards every message whose command is not that
probe unchanged with nothing enqueued, and on the concrete inbound probe
carrying tag123 emits exactly one acknowledgement carrying tag123 while
forwarding nothing downstream. -/
theorem c2_keepalive_filter_behavior :
    (∀ msg : Message, msg.command = Command.Cmd ("PING" : String).data →
      keepaliveStep msg =
        (none, [{ tags := [], origin := none,
                  command := Command.Cmd ("PONG" : String).data,
                  params := msg.params }])) ∧
    (∀ msg : Message,
      (∀ v, msg.command = Command.Cmd v → v ≠ ("PING" : String).data) →
      keepaliveStep msg = (some msg, [])) ∧
    keepaliveFilter
        [{ tags := [], origin := some ("srv" : String).data,
           command := Command.Cmd ("PING" : String).data,
           params := [("tag123" : String).data] }] =
      ([], [{ tags := [], origin := none,
              command := Command.Cmd ("PONG" : String).data,
              params := [("tag123" : String).data] }]) := by
  refine ⟨?_, ?_, rfl⟩
  · intro msg h
    simp [keepaliveStep, h]
  · intro msg h
    cases hc : msg.command with
    | Cmd v => simp [keepaliveStep, hc, h v hc]
    | Response r => simp [keepaliveStep, hc]

/-- Witness for C2 at concrete inputs: a probe carrying tag123 and a
NOTICE message. -/
theorem c2_keepalive_filter_behavior_witness :
    keepaliveStep
        { tags := [], origin := some ("srv" : String).data,
          command := Command.Cmd ("PING" : String).data,
          params := [("tag123" : String).data] } =
      (none, [{ tags := [], origin := none,
                command := Command.Cmd ("PONG" : String).data,
                params := [("tag123" : String).data] }]) ∧
    keepaliveStep
        { tags := [], origin := none,
          command := Command.Cmd ("NOTICE" : String).data,
          params := [("hi" : String).data] } =
      (some { tags := [], origin := none,
              command := Command.Cmd ("NOTICE" : String).data,
              params := [("hi" : String).data] }, []) :=
  ⟨c2_keepalive_filter_behavior.1 _ rfl,
   c2_keepalive_filter_behavior.2.1 _ (fun v hv => by cases hv; decide)⟩

/-- C6: for a non-empty buffer the line framer emits one frame exactly
when the final byte is a line feed, the frame being every earlier byte
followed by the canonical carriage-return line-feed pair, and the buffer
is cleared; when the final byte is not a line feed, in particular when no
line feed occurs at all, nothing is emitted and every byte is retained. -/
theorem c6_line_framer (src : List Nat) (h : src ≠ []) :
    (src.getLast? = some 10 → crlfDecode src = (some (src.dropLast ++ [13, 10]), [])) ∧
    (src.getLast? ≠ some 10 → crlfDecode src = (none, src)) ∧
    ((10 : Nat) ∉ src → crlfDecode src = (none, src)) := by
  refine ⟨?_, ?_, ?_⟩
  · intro hl
    simp [crlfDecode, hl]
  · intro hl
    cases hg : src.getLast? with
    | none =>
      cases src with
      | nil => exact absurd rfl h
      | cons a l => exact absurd hg (getLast?_cons_ne_none a l)
    | some b =>
      have hb : ¬ b = 10 := fun e => hl (by rw [hg, e])
      simp [crlfDecode, hg, hb]
  · intro hm
    cases hg : src.getLast? with
    | none => simp [crlfDecode, hg]
    | some b =>
      have hb : ¬ b = 10 := fun e => hm (e ▸ mem_of_getLast?_eq src b hg)
      simp [crlfDecode, hg, hb]

/-- Witness for C6 at concrete buffers: hi followed by a line feed, and hi
alone. -/
theorem c6_line_framer_witness :
    crlfDecode [104, 105, 10] = (some (([104, 105, 10] : List Nat).dropLast ++ [13, 10]), []) ∧
    crlfDecode [104, 105] = (none, [104, 105]) :=
  ⟨(c6_line_framer [104, 105, 10] (by decide)).1 (by decide),
   (c6_line_framer [104, 105] (by decide)).2.2 (by decide)⟩

/-- C8: classification of a numeric tries the Info, Command and Error
enumerations in that fixed order and returns the variant of the first set
holding the value; a value in none of the sets is the modeled panic; the
numeric 001 classifies to the Info family welcome variant and 999 fails
classification. -/
theorem c8_reply_classification_order :
    (∀ (n : Nat) (ir : InfoReply), infoReplyOfU16 n = some ir →
      replyFromU16 n = some (Reply.Info ir)) ∧
    (∀ (n : Nat) (cr : CommandReply), infoReplyOfU16 n = none →
      commandReplyOfU16 n = some cr → replyFromU16 n = some (Reply.Command cr)) ∧
    (∀ (n : Nat) (er : ErrorReply), infoReplyOfU16 n = none →
      commandReplyOfU16 n = none → errorReplyOfU16 n = some er →
      replyFromU16 n = some (Reply.Error er)) ∧
    (∀ n : Nat, infoReplyOfU16 n = none → commandReplyOfU16 n = none →
      errorReplyOfU16 n = none → replyFromU16 n = none) ∧
    replyFromU16 1 = some (Reply.Info InfoReply.Welcome) ∧
    commandFromString ("001" : String).data =
      Except.ok (Command.Response (Reply.Info InfoReply.Welcome)) ∧
    replyFromU16 999 = none ∧
    commandFromString ("999" : String).data = Except.error "unknown reply" := by
  refine ⟨?_, ?_, ?_, ?_, rfl, rfl, rfl, rfl⟩
  · intro n ir h
    simp [replyFromU16, h]
  · intro n cr h1 h2
    simp [replyFromU16, h1, h2]
  · intro n er h1 h2 h3
    simp [replyFromU16, h1, h2, h3]
  · intro n h1 h2 h3
    simp [replyFromU16, h1, h2, h3]

/-- Witness for C8 at one concrete numeric per family and one unknown
numeric. -/
theorem c8_reply_classification_order_witness :
    replyFromU16 1 = some (Reply.Info InfoReply.Welcome) ∧
    replyFromU16 301 = some (Reply.Command CommandReply.Away) ∧
    replyFromU16 400 = some (Reply.Error ErrorReply.Unknown) ∧
    replyFromU16 999 = none :=
  ⟨c8_reply_classification_order.1 1 InfoReply.Welcome rfl,
   c8_reply_classification_order.2.1 301 CommandReply.Away rfl rfl,
   c8_reply_classification_order.2.2.1 400 ErrorReply.Unknown rfl rfl rfl,
   c8_reply_classification_order.2.2.2.1 999 rfl rfl rfl⟩

/-- C9: every successfully parsed Message has a non-empty parameter list
because the trailing parameter is always appended; the USER scenario
parses to the verb USER with the four claimed parameters; a line with no
colon-introduced trailing segment still ends with an empty last
parameter. -/
theorem c9_params_always_nonempty :
    (∀ (s : List Char) (m : Message), parseMessage s = Except.ok m → m.params ≠ []) ∧
    parseMessage ("USER bob 0 * :Bob Smith" : String).data =
      Except.ok { tags := [], origin := none,
                  command := Command.Cmd ("USER" : String).data,
                  params := [("bob" : String).data, ("0" : String).data,
                             ("*" : String).data, ("Bob Smith" : String).data] } ∧
    (parseMessage ("PING abc" : String).data).map Message.params =
      Except.ok [("abc" : String).data, []] := by
  refine ⟨?_, rfl, rfl⟩
  intro s m h
  unfold parseMessage at h
  split at h
  · exact Except.noConfusion h
  · split at h
    · exact Except.noConfusion h
    · split at h
      · exact Except.noConfusion h
      · rw [Except.ok.injEq] at h
        subst h
        exact paramsOf_ne_nil _

/-- Witness for C9 at the USER scenario. -/
theorem c9_params_always_nonempty_witness :
    ({ tags := [], origin := none,
       command := Command.Cmd ("USER" : String).data,
       params := [("bob" : String).data, ("0" : String).data,
                  ("*" : String).data, ("Bob Smith" : String).data] } : Message).params ≠ [] :=
  c9_params_always_nonempty.1 ("USER bob 0 * :Bob Smith" : String).data _ rfl

lemma serverMessageDecode_eq (src : List Char) :
    serverMessageDecode src =
      match findSubstr ['\r', '\n'] src with
      | some i =>
        (match parseMessage (src.take i) with
         | Except.ok msg => Except.ok (some msg, src.drop (i + 2))
         | Except.error e => Except.error e)
      | none => Except.ok (none, src) := by
  cases src with
  | nil => rfl
  | cons a l => rfl

/-- C1: for every line of the claimed shape, with a non-empty
whitespace-free origin, a non-empty whitespace-free colon-free textual
verb that does not parse as a u16, one non-empty whitespace-free
colon-free middle parameter, and a non-empty trailing parameter free of
line feeds, decoding the CRLF-terminated wire bytes yields one Message and
encoding that Message reproduces the original bytes exactly. -/
theorem c1_privmsg_roundtrip (p v m t : List Char)
    (hp : p ≠ []) (hpw : ∀ c ∈ p, isWs c = false)
    (hv : v ≠ []) (hvw : ∀ c ∈ v, isWs c = false) (hvc : ':' ∉ v)
    (hvn : parseU16 v = none)
    (hm : m ≠ []) (hmw : ∀ c ∈ m, isWs c = false) (hmc : ':' ∉ m)
    (ht : t ≠ []) (htn : '\n' ∉ t) :
    ∃ msg : Message,
      serverMessageDecode (privmsgLine p v m t ++ ['\r', '\n']) =
        Except.ok (some msg, []) ∧
      encodeMessage msg = privmsgLine p v m t ++ ['\r', '\n'] := by
  obtain ⟨vc, vr, rfl⟩ : ∃ c r, v = c :: r := by
    cases v with
    | nil => exact absurd rfl hv
    | cons c r => exact ⟨c, r, rfl⟩
  obtain ⟨mc, mr, rfl⟩ : ∃ c r, m = c :: r := by
    cases m with
    | nil => exact absurd rfl hm
    | cons c r => exact ⟨c, r, rfl⟩
  have hpsp : ' ' ∉ p := fun hmem => by have := hpw ' ' hmem; simp [isWs] at this
  have hvsp : ' ' ∉ vc :: vr := fun hmem => by have := hvw ' ' hmem; simp [isWs] at this
  have hmsp : ' ' ∉ mc :: mr := fun hmem => by have := hmw ' ' hmem; simp [isWs] at this
  have hpln : '\n' ∉ p := fun hmem => by have := hpw '\n' hmem; simp [isWs] at this
  have hvcw : isWs vc = false := hvw vc (List.mem_cons_self vc vr)
  have hmcw : isWs mc = false := hmw mc (List.mem_cons_self mc mr)
  have hvcsp : ¬ vc = ' ' := fun e => by rw [e] at hvcw; simp [isWs] at hvcw
  have hvc2 : ¬ '\n' = vc := fun e => by
    have := hvw vc (List.mem_cons_self vc vr); rw [← e] at this; simp [isWs] at this
  have hvr2 : '\n' ∉ vr := fun e => by
    have := hvw '\n' (List.mem_cons_of_mem vc e); simp [isWs] at this
  have hmc2 : ¬ '\n' = mc := fun e => by
    have := hmw mc (List.mem_cons_self mc mr); rw [← e] at this; simp [isWs] at this
  have hmr2 : '\n' ∉ mr := fun e => by
    have := hmw '\n' (List.mem_cons_of_mem mc e); simp [isWs] at this
  refine ⟨{ tags := [], origin := some p, command := Command.Cmd (vc :: vr),
            params := [mc :: mr, t] }, ?_, ?_⟩
  · -- the decode direction
    have h0 : '\n' ∉ privmsgLine p (vc :: vr) (mc :: mr) t := by
      intro hmem
      simp [privmsgLine, List.mem_cons, List.mem_append, hpln, hvc2, hvr2, hmc2, hmr2,
        htn] at hmem
    have hfind :
        findSubstr ['\r', '\n'] (privmsgLine p (vc :: vr) (mc :: mr) t ++ ['\r', '\n']) =
          some (privmsgLine p (vc :: vr) (mc :: mr) t).length :=
      findSubstr_crlf _ [] h0
    have htake :
        (privmsgLine p (vc :: vr) (mc :: mr) t ++ ['\r', '\n']).take
            (privmsgLine p (vc :: vr) (mc :: mr) t).length =
          privmsgLine p (vc :: vr) (mc :: mr) t :=
      take_len_append _ _
    have hdrop :
        (privmsgLine p (vc :: vr) (mc :: mr) t ++ ['\r', '\n']).drop
            ((privmsgLine p (vc :: vr) (mc :: mr) t).length + 2) = [] := by
      rw [drop_len_add_append]
      rfl
    have htags : parseTagsStep (privmsgLine p (vc :: vr) (mc :: mr) t) = Except.ok [] :=
      parseTagsStep_not_at ':' _ (by decide)
    have htrim : trimStartWs (privmsgLine p (vc :: vr) (mc :: mr) t) =
        privmsgLine p (vc :: vr) (mc :: mr) t :=
      trimStartWs_cons_not ':' _ (by decide)
    have hf : findChar ' ' (privmsgLine p (vc :: vr) (mc :: mr) t) = some (p.length + 1) := by
      rw [privmsgLine, findChar, if_neg (by decide)]
      rw [findChar_append ' ' p _ hpsp]
      rfl
    have htk : (privmsgLine p (vc :: vr) (mc :: mr) t).take (p.length + 1) = ':' :: p := by
      rw [privmsgLine, List.take_succ_cons, take_len_append]
    have htm : trimStartMatches (':' :: p) (privmsgLine p (vc :: vr) (mc :: mr) t) =
        ' ' :: ((vc :: vr) ++ ' ' :: ((mc :: mr) ++ ' ' :: ':' :: t)) := by
      have hsw : startsWith (':' :: p)
          (' ' :: ((vc :: vr) ++ ' ' :: ((mc :: mr) ++ ' ' :: ':' :: t))) = false :=
        startsWith_cons_ne ':' ' ' p _ (by decide)
      have := trimStartMatches_cons_append ':' p
        (' ' :: ((vc :: vr) ++ ' ' :: ((mc :: mr) ++ ' ' :: ':' :: t))) hsw
      rw [List.cons_append] at this
      rw [privmsgLine]
      exact this
    have hpre : parsePrefixStep (privmsgLine p (vc :: vr) (mc :: mr) t) =
        Except.ok (some p,
          ' ' :: ((vc :: vr) ++ ' ' :: ((mc :: mr) ++ ' ' :: ':' :: t))) := by
      rw [privmsgLine] at hf htk htm ⊢
      simp only [parsePrefixStep, hf, htk, htm, List.drop_succ_cons, List.drop_zero]
    have htrim2 : trimStartWs
        (' ' :: ((vc :: vr) ++ ' ' :: ((mc :: mr) ++ ' ' :: ':' :: t))) =
        (vc :: vr) ++ ' ' :: ((mc :: mr) ++ ' ' :: ':' :: t) := by
      rw [trimStartWs_cons_ws ' ' _ (by decide), List.cons_append]
      exact trimStartWs_cons_not vc _ hvcw
    have htok : commandToken ((vc :: vr) ++ ' ' :: ((mc :: mr) ++ ' ' :: ':' :: t)) =
        vc :: vr := by
      rw [commandToken, findChar_append ' ' (vc :: vr) _ hvsp]
      rw [Option.getD_some]
      exact take_len_append _ _
    have hcmd : commandFromString (vc :: vr) = Except.ok (Command.Cmd (vc :: vr)) := by
      simp only [commandFromString, hvn]
    have hrest : restAfterCommand ((vc :: vr) ++ ' ' :: ((mc :: mr) ++ ' ' :: ':' :: t)) =
        (mc :: mr) ++ ' ' :: ':' :: t := by
      rw [restAfterCommand, htok]
      rw [trimStartMatches_cons_append vc vr _ (startsWith_cons_ne vc ' ' vr _ hvcsp)]
      rw [trimStartWs_cons_ws ' ' _ (by decide), List.cons_append]
      exact trimStartWs_cons_not mc _ hmcw
    have hpar : paramsOf ((mc :: mr) ++ ' ' :: ':' :: t) = [mc :: mr, t] := by
      have hgroup : (mc :: mr) ++ ' ' :: ':' :: t = ((mc :: mr) ++ [' ']) ++ ':' :: t := by
        simp
      have hnc : ':' ∉ (mc :: mr) ++ [' '] := by
        intro hmem
        rcases List.mem_append.mp hmem with hh | hh
        · exact hmc hh
        · simp at hh
      have hsplit : splitOnChar ' ' ((mc :: mr) ++ [' ']) = [mc :: mr, []] := by
        have := splitOnChar_append ' ' (mc :: mr) [] hmsp
        simpa using this
      rw [hgroup]
      simp only [paramsOf, findChar_append ':' ((mc :: mr) ++ [' ']) t hnc,
        take_len_append, drop_len_append, List.drop_succ_cons, List.drop_zero, hsplit]
      simp [List.filter]
    have hparse : parseMessage (privmsgLine p (vc :: vr) (mc :: mr) t) =
        Except.ok { tags := [], origin := some p, command := Command.Cmd (vc :: vr),
                    params := [mc :: mr, t] } := by
      simp only [parseMessage, htags, htrim, hpre, htrim2, htok, hcmd, hrest, hpar]
    rw [serverMessageDecode_eq]
    simp only [hfind, htake, hparse, hdrop]
  · -- the encode direction
    simp [encodeMessage, splitLast, joinSep, privmsgLine]

/-- Witness for C1 at the concrete line of the claim. -/
theorem c1_privmsg_roundtrip_witness :
    ∃ msg : Message,
      serverMessageDecode
          (privmsgLine ("nick!user@host" : String).data ("PRIVMSG" : String).data
              ("#chan" : String).data ("hello world" : String).data ++ ['\r', '\n']) =
        Except.ok (some msg, []) ∧
      encodeMessage msg =
        privmsgLine ("nick!user@host" : String).data ("PRIVMSG" : String).data
            ("#chan" : String).data ("hello world" : String).data ++ ['\r', '\n'] :=
  c1_privmsg_roundtrip _ _ _ _ (by decide) (by decide) (by decide) (by decide)
    (by decide) (by decide) (by decide) (by decide) (by decide) (by decide) (by decide)

lemma parsePrefixStep_not_colon (c : Char) (rest : List Char) (h : ¬ c = ':') :
    parsePrefixStep (c :: rest) = Except.ok (none, c :: rest) := by
  simp only [parsePrefixStep]
  split <;> simp_all

lemma not_mem_append_cons {α : Type} (c a : α) (xs ys : List α)
    (h1 : c ∉ xs) (h2 : ¬ c = a) (h3 : c ∉ ys) : c ∉ xs ++ a :: ys := by
  intro hmem
  rcases List.mem_append.mp hmem with h | h
  · exact h1 h
  · rcases List.mem_cons.mp h with h | h
    · exact h2 h
    · exact h3 h

lemma parseTagsStep_at (core rest : List Char) (hsp : ' ' ∉ core) :
    parseTagsStep ('@' :: (core ++ ' ' :: rest)) =
      Except.ok ((splitOnChar ';' core).foldl
        (fun m tag =>
          match splitOnChar '=' tag with
          | [] => m
          | [k] => tagsInsert m k ("true" : String).data
          | k :: v :: _ => tagsInsert m k v) []) := by
  have hf : findChar ' ' ('@' :: (core ++ ' ' :: rest)) = some (core.length + 1) := by
    rw [findChar, if_neg (by decide), findChar_append ' ' core rest hsp]
    rfl
  simp only [parseTagsStep, hf, List.take_succ_cons, take_len_append, List.drop_succ_cons,
    List.drop_zero]

lemma parseMessage_tag_line (core : List Char) (hsp : ' ' ∉ core)
    (tags : List (List Char × List Char))
    (htags : parseTagsStep ('@' :: (core ++ ' ' :: ("PING" : String).data)) = Except.ok tags) :
    parseMessage ('@' :: (core ++ ' ' :: ("PING" : String).data)) =
      Except.ok { tags := tags, origin := none, command := Command.Cmd ('@' :: core),
                  params := [("PING" : String).data, []] } := by
  have htrim : trimStartWs ('@' :: (core ++ ' ' :: ("PING" : String).data)) =
      '@' :: (core ++ ' ' :: ("PING" : String).data) :=
    trimStartWs_cons_not '@' _ (by decide)
  have hpre := parsePrefixStep_not_colon '@'
    (core ++ ' ' :: ("PING" : String).data) (by decide)
  have hf : findChar ' ' ('@' :: (core ++ ' ' :: ("PING" : String).data)) =
      some (core.length + 1) := by
    rw [findChar, if_neg (by decide), findChar_append ' ' core _ hsp]
    rfl
  have htok : commandToken ('@' :: (core ++ ' ' :: ("PING" : String).data)) = '@' :: core := by
    rw [commandToken, hf, Option.getD_some, List.take_succ_cons, take_len_append]
  have hcmd : commandFromString ('@' :: core) = Except.ok (Command.Cmd ('@' :: core)) := by
    simp only [commandFromString,
      parseU16_head_not '@' core (by decide) (by decide) (by decide)]
  have hrest : restAfterCommand ('@' :: (core ++ ' ' :: ("PING" : String).data)) =
      ("PING" : String).data := by
    rw [restAfterCommand, htok]
    have hsw : startsWith ('@' :: core) (' ' :: ("PING" : String).data) = false :=
      startsWith_cons_ne '@' ' ' core _ (by decide)
    have htm := trimStartMatches_cons_append '@' core (' ' :: ("PING" : String).data) hsw
    rw [List.cons_append] at htm
    rw [htm]
    rfl
  have hpar : paramsOf ("PING" : String).data = [("PING" : String).data, []] := rfl
  simp only [parseMessage, htags, htrim, hpre, htok, hcmd, hrest, hpar]

/-- C7 amended: on a line whose decoded text begins with the at sign, the
parser takes the substring up to the first space as the tag section,
splits it on semicolons, and splits each entry on every equals sign
keeping only the first two pieces as key and value, so any text after a
second equals sign in an entry is discarded rather than kept in the
value; entries with no equals sign get the value true; the tag section
id=123;flag parses to the map sending id to 123 and flag to true. -/
theorem c7_tags_parsing_amended (k v1 v2 : List Char)
    (hk1 : ' ' ∉ k) (hk2 : ';' ∉ k) (hk3 : '=' ∉ k)
    (hv11 : ' ' ∉ v1) (hv12 : ';' ∉ v1) (hv13 : '=' ∉ v1)
    (hv21 : ' ' ∉ v2) (hv22 : ';' ∉ v2) (hv23 : '=' ∉ v2) :
    (parseMessage ('@' :: ((k ++ '=' :: (v1 ++ '=' :: v2)) ++ ' ' :: ("PING" : String).data))).map
        Message.tags = Except.ok [(k, v1)] ∧
    (parseMessage ('@' :: ((k ++ '=' :: v1) ++ ' ' :: ("PING" : String).data))).map
        Message.tags = Except.ok [(k, v1)] ∧
    (parseMessage ('@' :: (k ++ ' ' :: ("PING" : String).data))).map
        Message.tags = Except.ok [(k, ("true" : String).data)] ∧
    (parseMessage ("@id=123;flag PING" : String).data).map Message.tags =
      Except.ok [(("id" : String).data, ("123" : String).data),
                 (("flag" : String).data, ("true" : String).data)] := by
  refine ⟨?_, ?_, ?_, rfl⟩
  · have hspcore : ' ' ∉ k ++ '=' :: (v1 ++ '=' :: v2) :=
      not_mem_append_cons ' ' '=' k _ hk1 (by decide)
        (not_mem_append_cons ' ' '=' v1 v2 hv11 (by decide) hv21)
    have hsccore : ';' ∉ k ++ '=' :: (v1 ++ '=' :: v2) :=
      not_mem_append_cons ';' '=' k _ hk2 (by decide)
        (not_mem_append_cons ';' '=' v1 v2 hv12 (by decide) hv22)
    have hsplit : splitOnChar '=' (k ++ '=' :: (v1 ++ '=' :: v2)) = [k, v1, v2] := by
      rw [splitOnChar_append '=' k _ hk3, splitOnChar_append '=' v1 v2 hv13,
        splitOnChar_of_not_mem '=' v2 hv23]
    have ht1 : parseTagsStep
        ('@' :: ((k ++ '=' :: (v1 ++ '=' :: v2)) ++ ' ' :: ("PING" : String).data)) =
        Except.ok [(k, v1)] := by
      rw [parseTagsStep_at _ _ hspcore, splitOnChar_of_not_mem ';' _ hsccore]
      simp [List.foldl, hsplit, tagsInsert]
    rw [parseMessage_tag_line _ hspcore _ ht1]
    rfl
  · have hspcore : ' ' ∉ k ++ '=' :: v1 :=
      not_mem_append_cons ' ' '=' k v1 hk1 (by decide) hv11
    have hsccore : ';' ∉ k ++ '=' :: v1 :=
      not_mem_append_cons ';' '=' k v1 hk2 (by decide) hv12
    have hsplit : splitOnChar '=' (k ++ '=' :: v1) = [k, v1] := by
      rw [splitOnChar_append '=' k v1 hk3, splitOnChar_of_not_mem '=' v1 hv13]
    have ht1 : parseTagsStep ('@' :: ((k ++ '=' :: v1) ++ ' ' :: ("PING" : String).data)) =
        Except.ok [(k, v1)] := by
      rw [parseTagsStep_at _ _ hspcore, splitOnChar_of_not_mem ';' _ hsccore]
      simp [List.foldl, hsplit, tagsInsert]
    rw [parseMessage_tag_line _ hspcore _ ht1]
    rfl
  · have hsplit : splitOnChar '=' k = [k] := splitOnChar_of_not_mem '=' k hk3
    have ht1 : parseTagsStep ('@' :: (k ++ ' ' :: ("PING" : String).data)) =
        Except.ok [(k, ("true" : String).data)] := by
      rw [parseTagsStep_at _ _ hk1, splitOnChar_of_not_mem ';' k hk2]
      simp [List.foldl, hsplit, tagsInsert]
    rw [parseMessage_tag_line _ hk1 _ ht1]
    rfl

/-- Witness for C7 amended at the concrete entries id=123=45, id=123 and
a bare id entry. -/
theorem c7_tags_parsing_amended_witness :
    (parseMessage ('@' :: ((("id" : String).data ++ '=' :: (("123" : String).data ++
          '=' :: ("45" : String).data)) ++ ' ' :: ("PING" : String).data))).map
        Message.tags = Except.ok [(("id" : String).data, ("123" : String).data)] ∧
    (parseMessage ('@' :: ((("id" : String).data ++ '=' :: ("123" : String).data) ++
          ' ' :: ("PING" : String).data))).map
        Message.tags = Except.ok [(("id" : String).data, ("123" : String).data)] ∧
    (parseMessage ('@' :: (("id" : String).data ++ ' ' :: ("PING" : String).data))).map
        Message.tags = Except.ok [(("id" : String).data, ("true" : String).data)] ∧
    (parseMessage ("@id=123;flag PING" : String).data).map Message.tags =
      Except.ok [(("id" : String).data, ("123" : String).data),
                 (("flag" : String).data, ("true" : String).data)] :=
  c7_tags_parsing_amended ("id" : String).data ("123" : String).data ("45" : String).data
    (by decide) (by decide) (by decide) (by decide) (by decide) (by decide)
    (by decide) (by decide) (by decide)
